import Mathlib

/-!
Verification of the A2A multi-agent demo.

Shallow embedding of the orchestrating assistant agent
(src/unnamed/part_000, class AssistantAgentExecutor), the calculator
specialist (src/unnamed/part_001, class CalculatorAgentExecutor, and the
variant in src/agents/calculator-agent.js, class CalculatorExecutor), the
structured-data specialist (src/agents/graphql-agent.js, class
GraphQLAgentExecutor) and the citation-collecting client loop
(src/frontend/app.js, ChatController.sendMessage).

Modelling conventions, applied uniformly:
- Message identifiers produced by uuidv4() and timestamps produced by
  new Date().toISOString() are fresh random values never read by any of
  the verified properties; they are omitted from the event model.
- External network calls (the Azure chat completions used for intent
  classification, free-form answers and data analysis, and the JavaScript
  Function/eval dynamic evaluator, and the graphql library call) are
  represented by oracle parameters: the embedding receives their outcome
  as an input and is otherwise a faithful translation of the JS control
  flow around them.
- JS strings are Lean String values; the handful of JS string methods the
  code uses (toLowerCase, trim, includes, startsWith, replace on single
  characters, Array.prototype.join) are given small executable models.
-/

namespace A2ADemo

/-- JS String.prototype.toLowerCase (the sources only feed it ASCII). -/
def jsLower (s : String) : String := ⟨s.data.map Char.toLower⟩

/-- The ASCII whitespace characters of the JS \s class (the unicode
additions never occur in the texts this repository handles). -/
def isJsSpace (c : Char) : Bool :=
  c = ' ' || c = '\t' || c = '\n' || c = '\r' || c = '\x0b' || c = '\x0c'

/-- JS String.prototype.trim: strip whitespace from both ends. -/
def jsTrim (s : String) : String :=
  ⟨((s.data.dropWhile isJsSpace).reverse.dropWhile isJsSpace).reverse⟩

/-- JS String.prototype.startsWith. -/
def jsStartsWith (s pre : String) : Bool := pre.data.isPrefixOf s.data

/-- JS String.prototype.includes: substring containment test. -/
def jsIncludes (hay needle : String) : Bool :=
  (List.range (hay.data.length + 1)).any fun i => needle.data.isPrefixOf (hay.data.drop i)

/-- A provenance record as published by the graphql specialist.  The random
id and timestamp fields are omitted (see the conventions above). -/
structure Citation where
  label : String
  url : Option String := none
  kind : String
  tool : String
  note : String
deriving DecidableEq, Repr

/-- One part of an artifact payload: a text part, or a base64 file part.
The base64 constructor carries the pre-encoding UTF-8 content (base64
encoding is injective, so payload-equality statements are unaffected). -/
inductive APart where
  | text (s : String)
  | base64 (content : String)
deriving DecidableEq, Repr

/-- The message object nested inside a status update.  parts is the list
of text-part strings; citations is [] when the JS object has no citations
field. -/
structure Msg where
  role : String
  taskId : String
  contextId : String
  parts : List String
  citations : List Citation := []
deriving DecidableEq, Repr

/-- An event published on the A2A event bus, as produced by the executors
in this repository: the initial task event, a status update, or an
artifact update. -/
inductive Event where
  | task (id contextId state : String) (history : List String)
  | statusUpdate (taskId contextId state : String) (message : Msg) (final : Bool)
  | artifactUpdate (taskId contextId artifactId name mimeType : String)
      (parts : List APart) (citations : List Citation)
deriving DecidableEq, Repr

/-- The task identifier an event carries (the task event uses field id). -/
def Event.evTaskId : Event → String
  | .task i _ _ _ => i
  | .statusUpdate t _ _ _ _ => t
  | .artifactUpdate t _ _ _ _ _ _ => t

/-- The context identifier an event carries. -/
def Event.evContextId : Event → String
  | .task _ c _ _ => c
  | .statusUpdate _ c _ _ _ => c
  | .artifactUpdate _ c _ _ _ _ _ => c

/-- The final flag of an event; task and artifact events carry none, which
the consumers read as false. -/
def Event.isFinal : Event → Bool
  | .statusUpdate _ _ _ _ f => f
  | _ => false

/-- Whether an event is an artifact update. -/
def Event.isArtifact : Event → Bool
  | .artifactUpdate _ _ _ _ _ _ _ => true
  | _ => false

/-- The status state of an event (empty for artifact events; the task
event stores its state inside its status object). -/
def Event.stateOf : Event → String
  | .task _ _ st _ => st
  | .statusUpdate _ _ st _ _ => st
  | .artifactUpdate _ _ _ _ _ _ _ => ""

/-- The joined text of the message parts of a status update (the clients
compute parts.map(p => p.text).join("")). -/
def Event.msgText : Event → String
  | .statusUpdate _ _ _ m _ => String.join m.parts
  | _ => ""

/-- The citations on the message of a status update, [] otherwise: the
client at src/frontend/app.js reads msg.citations only on status-update
events. -/
def Event.statusCitations : Event → List Citation
  | .statusUpdate _ _ _ m _ => m.citations
  | _ => []

/-- True iff event, message and nested identifiers all equal the given
task and context identifiers. -/
def Event.idsAre (e : Event) (tid cid : String) : Bool :=
  match e with
  | .task i c _ _ => i == tid && c == cid
  | .statusUpdate t c _ m _ => t == tid && c == cid && m.taskId == tid && m.contextId == cid
  | .artifactUpdate t c _ _ _ _ _ => t == tid && c == cid

/-- An agent message carrying a single text part and no citations, the
shape every status update of the orchestrator and of the calculator uses. -/
def agentMsg (tid cid txt : String) : Msg :=
  { role := "agent", taskId := tid, contextId := cid, parts := [txt], citations := [] }

/-!
Orchestrator: src/unnamed/part_000, class AssistantAgentExecutor.
-/

/-- A registered tool as held by AssistantAgentExecutor.tools: the card
name, the card skill ids, the card defaultOutputModes, and the event
stream the tool server would yield for the delegated message (the network
response, an oracle input). -/
structure Tool where
  name : String
  skillIds : List String
  outputModes : List String
  stream : List Event
deriving DecidableEq, Repr

/-- AssistantAgentExecutor.cancelTask: adds the task identifier to the
cancellation set and resolves immediately.  The JS Set is modelled as a
duplicate-free list; List.insert is a no-op when the element is present,
matching Set.prototype.add. -/
def cancelTask (cancelled : List String) (taskId : String) : List String :=
  cancelled.insert taskId

/-- Tool lookup at part_000 lines 165 to 168: first tool whose lowercased
card name includes the intent or one of whose skill ids equals it. -/
def findTool (tools : List Tool) (intent : String) : Option Tool :=
  tools.find? fun t => jsIncludes (jsLower t.name) intent || t.skillIds.any (· == intent)

/-- The body of the for-await loop of _streamAgentResponse (part_000 lines
262 to 269): accumulate the joined text parts of every status update that
has a non-empty parts array, stopping after the first such event that is
final.  Task and artifact events are skipped; a final status update with
empty parts does not stop the loop (the final check sits inside the parts
guard in the source). -/
def streamBuf : List Event → String
  | [] => ""
  | .statusUpdate _ _ _ m f :: rest =>
      if m.parts.isEmpty then streamBuf rest
      else if f then String.join m.parts
      else String.join m.parts ++ streamBuf rest
  | _ :: rest => streamBuf rest

/-- AssistantAgentExecutor._streamAgentResponse (part_000 lines 261 to
271): the accumulated buffer wrapped as a specialist-labelled block, or ""
when the buffer stayed empty. -/
def streamAgentResponse (stream : List Event) (label : String) : String :=
  let buf := streamBuf stream
  if buf = "" then "" else "**" ++ label ++ ":** " ++ buf ++ "\n\n"

/-- The outbound message the orchestrator builds for a delegated call
(part_000 lines 172 to 177): a fresh messageId (omitted), role user, the
user text as single part, and no task or context identifiers. -/
structure OutboundMessage where
  role : String
  parts : List String
  taskId : Option String
  contextId : Option String
deriving DecidableEq, Repr

/-- The message field of the params passed to tool.client.sendMessageStream. -/
def delegationMessage (text : String) : OutboundMessage :=
  { role := "user", parts := [text], taskId := none, contextId := none }

/-- One invocation of AssistantAgentExecutor.execute, with the outcomes of
the external calls as oracle inputs.

- existing: whether context.task was present;
- text: userMessage.parts[0]?.text?.trim() || "";
- cls: the classification call outcome, some body iff the HTTP call
  succeeded with an ok status, where body is choices[0].message.content;
- gen: the free-form completion outcome for the general fallback,
  Except.ok body on success and Except.error message on a thrown or
  non-ok response;
- cancelRouting: whether this.cancelled.has(taskId) held at the routing
  check (part_000 line 162);
- cancelTerminal: the same membership at the terminal check (line 215). -/
structure OrchInput where
  existing : Bool
  taskId : String
  contextId : String
  text : String
  cls : Option String
  gen : Except String String
  tools : List Tool
  cancelRouting : Bool
  cancelTerminal : Bool

/-- Intent after classification (part_000 lines 129 to 158): the trimmed
lowercased oracle body, or "general" when the call failed. -/
def classifiedIntent (cls : Option String) : String :=
  match cls with
  | some s => jsLower (jsTrim s)
  | none => "general"

/-- The tool the turn delegates to (part_000 lines 162 to 184): none when
the task was already cancelled at the routing check, when the intent is
not one of the three specialist labels, or when no registered tool
matches. -/
def orchRoute (inp : OrchInput) : Option Tool :=
  let intent := classifiedIntent inp.cls
  if inp.cancelRouting then none
  else if intent = "weather" ∨ intent = "calculator" ∨ intent = "graphql" then
    findTool inp.tools intent
  else none

/-- The answer string of the turn (part_000 lines 161 to 212): the
delegated specialist block if a tool matched, else the general completion
(with its two-newline suffix, or the formatted error text) but only when
the intent is exactly "general". -/
def orchAnswer (inp : OrchInput) : String :=
  let intent := classifiedIntent inp.cls
  if inp.cancelRouting then ""
  else
    let toolAnswer :=
      match orchRoute inp with
      | some t => streamAgentResponse t.stream t.name
      | none => ""
    if toolAnswer = "" ∧ intent = "general" then
      match inp.gen with
      | .ok content => content ++ "\n\n"
      | .error m => "**Error:** " ++ m ++ "\n\n"
    else toolAnswer

/-- The full event trace one AssistantAgentExecutor.execute run publishes
to its event bus (part_000 lines 89 to 256): the initial task event when
the task is new, the working update, then exactly one terminal update -
cancelled when the cancellation set contains the task at the terminal
check, completed otherwise, with the answer or the placeholder text. -/
def orchTrace (inp : OrchInput) : List Event :=
  (if inp.existing then []
   else [Event.task inp.taskId inp.contextId "submitted" [inp.text]]) ++
  [Event.statusUpdate inp.taskId inp.contextId "working"
     (agentMsg inp.taskId inp.contextId "_Assistant is thinking..._") false] ++
  (if inp.cancelTerminal then
     [Event.statusUpdate inp.taskId inp.contextId "cancelled"
        (agentMsg inp.taskId inp.contextId "_(Task cancelled)_") true]
   else
     [Event.statusUpdate inp.taskId inp.contextId "completed"
        (agentMsg inp.taskId inp.contextId
          (if orchAnswer inp = "" then "*[No answer]*" else orchAnswer inp)) true])

/-!
Calculator specialist: src/unnamed/part_001, class CalculatorAgentExecutor.
-/

/-- The character class of the extraction and validation regexes at
part_001 lines 88 and 98: digits, + - * / ( ) . ^ space %. -/
def isCalcChar (c : Char) : Bool :=
  c.isDigit || c = '+' || c = '-' || c = '*' || c = '/' || c = '(' || c = ')' ||
    c = '.' || c = '^' || c = ' ' || c = '%'

/-- rawText.match(/[0-9+\-*\/().^ %]+/g) followed by join("") : the global
match yields the maximal runs of class characters, so their concatenation
is exactly the subsequence of class characters, and the match is null iff
no character belongs to the class (each run is non-empty). -/
def calcExpr (rawText : String) : String := ⟨rawText.data.filter isCalcChar⟩

/-- The validation test /^[0-9+\-*\/().^ %\s]+$/.test(expr); the \s class
is isJsSpace above. -/
def calcValid (expr : String) : Bool :=
  !expr.data.isEmpty && expr.data.all fun c => isCalcChar c || isJsSpace c

/-- expr.replace(/\^/g, "**"). -/
def caretToStars (s : String) : String :=
  ⟨s.data.flatMap fun c => if c = '^' then ['*', '*'] else [c]⟩

/-- The string handed to Function for dynamic evaluation, as a function of
the raw user input (part_001 lines 88 to 103). -/
def calcJsExpr (input : String) : String := caretToStars (calcExpr (jsTrim input))

/-- Outcome of the dynamic JavaScript evaluation
Function(...)(...): it threw, or returned a value with the given typeof
number flag, Number.isNaN flag and template-literal rendering. -/
inductive JSOutcome where
  | thrown (msg : String)
  | value (isNumber : Bool) (isNan : Bool) (render : String)
deriving DecidableEq, Repr

/-- The resultText computed by CalculatorAgentExecutor.execute (part_001
lines 85 to 114), with the dynamic evaluator as oracle ev: the error text
when no class character occurs, when validation fails, when evaluation
throws, or when the value is not a number or is NaN; otherwise the
extracted expression, an equals sign and the rendered value. -/
def calcResultText (input : String) (ev : String → JSOutcome) : String :=
  let rawText := jsTrim input
  let expr := calcExpr rawText
  if expr = "" then "Error: No valid expression found in input."
  else if !calcValid expr then "Error: Unsupported characters in expression."
  else
    match ev (caretToStars expr) with
    | .thrown m => "Error: " ++ m
    | .value isNumber isNan r =>
        if !isNumber || isNan then "Error: Expression did not evaluate to a number."
        else expr ++ " = " ++ r

/-- The event trace one CalculatorAgentExecutor.execute run publishes
(part_001 lines 47 to 158): task event when new, the working update with
text "Crunching numbers...", then the cancelled or the completed terminal
update. -/
def calcTrace (isNew : Bool) (tid cid input : String) (ev : String → JSOutcome)
    (cancelledAtCheck : Bool) : List Event :=
  (if isNew then [Event.task tid cid "submitted" [input]] else []) ++
  [Event.statusUpdate tid cid "working" (agentMsg tid cid "Crunching numbers...") false] ++
  (if cancelledAtCheck then
     [Event.statusUpdate tid cid "cancelled" (agentMsg tid cid "(calculation cancelled)") true]
   else
     [Event.statusUpdate tid cid "completed" (agentMsg tid cid (calcResultText input ev)) true])

/-!
Calculator variant: src/agents/calculator-agent.js, class CalculatorExecutor.
-/

/-- The character class kept by text.replace(/[^0-9+\-*\/.]/g, " "):
digits and + - * / . -/
def isCleanChar (c : Char) : Bool :=
  c.isDigit || c = '+' || c = '-' || c = '*' || c = '/' || c = '.'

/-- The cleaned expression of CalculatorExecutor.execute (lines 49 to 51):
every character outside the class becomes a space.  The subsequent
.replace(/divided by/gi, "/") can never match because no letter survives
the first replace (cleanExpr_no_letter below), so it is the identity and
is not repeated here. -/
def cleanExpr (text : String) : String :=
  ⟨text.data.map fun c => if isCleanChar c then c else ' '⟩

/-- The result value of CalculatorExecutor.execute lines 47 to 57: the
no-expression error when the cleaned text is blank, the caught error
message when eval throws, else the evaluated value rendering (this variant
performs no number check). -/
def calc3001Result (text : String) (ev : String → JSOutcome) : String :=
  let cleaned := cleanExpr text
  if jsTrim cleaned = "" then "Error: No math expression found."
  else
    match ev cleaned with
    | .thrown m => "Error: " ++ m
    | .value _ _ r => r

/-!
Structured-data specialist: src/agents/graphql-agent.js, class
GraphQLAgentExecutor.  The slice embedded here is the intent pattern
rules, the HITL awaiting map lifecycle, and the published event shapes;
the graphql library evaluation, JSON.stringify renderings and the LLM
analysis call are oracle inputs.
-/

/-- A row of the mock dataset; production is carried as its source
literal rendering (no floating point is computed on it anywhere the
verified claims reach). -/
structure Site where
  name : String
  location : String
  production : String
deriving DecidableEq, Repr

/-- The mockSites dataset (graphql-agent.js lines 69 to 73). -/
def mockSites : List Site :=
  [⟨"Alpha", "Malaysia", "12345.6"⟩, ⟨"Beta", "Canada", "23456.7"⟩,
   ⟨"Gamma", "Malaysia", "34567.8"⟩]

/-- An entry of this.awaiting (graphql-agent.js line 268):
{ action: "exportCsv", dataArray }.  A single non-array lastResultData is
stored as a one-element list, mirroring the Array.isArray wrapping. -/
structure AwaitEntry where
  action : String
  dataArray : List Site
deriving DecidableEq, Repr

/-- this.awaiting, a JS object keyed by taskId, as an association list
with unique keys (property assignment overwrites). -/
def lookupAwait (m : List (String × AwaitEntry)) (k : String) : Option AwaitEntry :=
  (m.find? fun p => p.1 == k).map (·.2)

/-- delete this.awaiting[taskId]. -/
def eraseAwait (m : List (String × AwaitEntry)) (k : String) : List (String × AwaitEntry) :=
  m.filter fun p => !(p.1 == k)

/-- this.awaiting[taskId] = entry. -/
def insertAwait (m : List (String × AwaitEntry)) (k : String) (v : AwaitEntry) :
    List (String × AwaitEntry) :=
  (k, v) :: eraseAwait m k

/-- The confirmation test /(^y(es)?$)|(^ok$)|approve|proceed/.test(decision)
(graphql-agent.js line 118): exact y, yes or ok, or the substrings approve
or proceed anywhere. -/
def yesLike (d : String) : Bool :=
  d == "y" || d == "yes" || d == "ok" || jsIncludes d "approve" || jsIncludes d "proceed"

/-- The refusal test /(^n(o)?$)|cancel|stop/.test(decision) (line 122). -/
def noLike (d : String) : Bool :=
  d == "n" || d == "no" || jsIncludes d "cancel" || jsIncludes d "stop"

/-- The intent pattern rules of GraphQLAgentExecutor.execute (lines 175 to
180), a deterministic function of the user text alone: a leading query
keyword or brace selects the query skill, then chart keywords, then file
keywords, then a known site name, else the LLM analysis skill. -/
def graphqlIntent (userText : String) : String :=
  let lower := jsLower userText
  if jsStartsWith lower "query" || jsStartsWith (jsTrim userText) "\x7b" then "compressor_data_query"
  else if jsIncludes lower "chart" || jsIncludes lower "graph" then "chart_output"
  else if jsIncludes lower "csv" || jsIncludes lower "file" || jsIncludes lower "download" then
    "data_file_export"
  else if jsIncludes lower "alpha" || jsIncludes lower "beta" || jsIncludes lower "gamma" then
    "compressor_data_query"
  else "data_analysis"

/-- String(v).replace(/,/g, ";") applied to a CSV field (line 344). -/
def csvField (v : String) : String :=
  ⟨v.data.map fun c => if c = ',' then ';' else c⟩

/-- The CSV text built by _exportCsv (lines 339 to 347): the header row
from the keys of the first item, then one comma-joined row per item.  An
empty data array yields the bare empty header row. -/
def csvOfSites (rows : List Site) : String :=
  match rows with
  | [] => ""
  | _ =>
      String.intercalate "\n"
        ("name,location,production" ::
          rows.map fun s => csvField s.name ++ "," ++ csvField s.location ++ "," ++ csvField s.production)

/-- The events _exportCsv publishes (lines 349 to 374): the CSV artifact
with two internal citations, then the final completed update with one. -/
def exportCsvEvents (tid cid : String) (rows : List Site) : List Event :=
  [Event.artifactUpdate tid cid "data-csv" "data.csv" "text/csv"
     [APart.base64 (csvOfSites rows)]
     [⟨"Dataset: mockSites", none, "internal", "GraphQL Tool Agent", "CSV rows from mock data"⟩,
      ⟨"Skill: data_file_export", none, "internal", "GraphQL Tool Agent", "CSV written server-side"⟩],
   Event.statusUpdate tid cid "completed"
     { role := "agent", taskId := tid, contextId := cid,
       parts := ["Exported data to CSV file."],
       citations := [⟨"Skill: data_file_export", none, "internal", "GraphQL Tool Agent",
         "Export confirmed by user"⟩] } true]

/-- One invocation of GraphQLAgentExecutor.execute.

- userText0: userMessage.parts?.[0]?.text || "";
- mem: memoryByContext[contextId].lastResultData at entry, none when the
  context has no stored result (a stored single site appears as a
  one-element list);
- queryJson: JSON.stringify(result, null, 2) of the graphql library call
  (external);
- chartJson: JSON.stringify of the chart wrapper (external);
- llm: the Azure analysis call outcome, Except.error carrying the thrown
  message (also covering the unconfigured-LLM throw);
- awaiting: this.awaiting at entry. -/
structure GraphQLIn where
  isNew : Bool
  taskId : String
  contextId : String
  userText0 : String
  mem : Option (List Site)
  queryJson : String
  chartJson : String
  llm : Except String String
  awaiting : List (String × AwaitEntry)

/-- The empty-parts working update GraphQLAgentExecutor publishes (lines
162 to 172); the source keeps parts empty to avoid duplicated working
text in bubbles. -/
def gWorking (tid cid : String) : Event :=
  Event.statusUpdate tid cid "working"
    { role := "agent", taskId := tid, contextId := cid, parts := [], citations := [] } false

/-- GraphQLAgentExecutor.execute (graphql-agent.js lines 96 to 336):
the published event list and the new awaiting map.  The continuation
branch for an awaiting task runs before the working update and before any
intent patterns; the export intent installs an awaiting entry and pauses
with a non-final input-required update. -/
def graphqlHandle (g : GraphQLIn) : List Event × List (String × AwaitEntry) :=
  let userText := jsTrim g.userText0
  let taskEvts : List Event :=
    if g.isNew then [Event.task g.taskId g.contextId "submitted" [userText]] else []
  match lookupAwait g.awaiting g.taskId with
  | some entry =>
      let decision := jsLower userText
      if yesLike decision then
        (taskEvts ++ exportCsvEvents g.taskId g.contextId entry.dataArray,
         eraseAwait g.awaiting g.taskId)
      else if noLike decision then
        (taskEvts ++
           [Event.statusUpdate g.taskId g.contextId "completed"
              { role := "agent", taskId := g.taskId, contextId := g.contextId,
                parts := ["CSV export cancelled."],
                citations := [⟨"Skill: data_file_export", none, "internal",
                  "GraphQL Tool Agent", "User declined export"⟩] } true],
         eraseAwait g.awaiting g.taskId)
      else
        (taskEvts ++
           [Event.statusUpdate g.taskId g.contextId "input-required"
              { role := "agent", taskId := g.taskId, contextId := g.contextId,
                parts := ["Please reply \x27yes\x27 or \x27no\x27 to confirm the CSV export."],
                citations := [⟨"HITL confirmation", none, "internal",
                  "GraphQL Tool Agent", "Disambiguation on export"⟩] } false],
         g.awaiting)
  | none =>
      let working := gWorking g.taskId g.contextId
      let intent := graphqlIntent userText
      if intent = "compressor_data_query" then
        (taskEvts ++ [working,
           Event.artifactUpdate g.taskId g.contextId "result-json" "result.json" "application/json"
             [APart.text g.queryJson]
             [⟨"Dataset: mockSites", none, "internal", "GraphQL Tool Agent", "In-memory mock data"⟩,
              ⟨"Skill: compressor_data_query", none, "internal", "GraphQL Tool Agent",
                "Executed GraphQL query"⟩],
           Event.statusUpdate g.taskId g.contextId "completed"
             { role := "agent", taskId := g.taskId, contextId := g.contextId,
               parts := [g.queryJson],
               citations := [⟨"GraphQL spec (query language)", some "https://spec.graphql.org/",
                 "doc", "GraphQL Tool Agent", "Query evaluation"⟩] } true],
         g.awaiting)
      else if intent = "chart_output" then
        (taskEvts ++ [working,
           Event.artifactUpdate g.taskId g.contextId "chart-data" "chart.json" "application/json"
             [APart.text g.chartJson]
             [⟨"Dataset: mockSites", none, "internal", "GraphQL Tool Agent",
                "Chart built from mock data"⟩,
              ⟨"Skill: chart_output", none, "internal", "GraphQL Tool Agent",
                "Chart generation skill used"⟩],
           Event.statusUpdate g.taskId g.contextId "completed"
             { role := "agent", taskId := g.taskId, contextId := g.contextId,
               parts := ["Chart generated from the data."],
               citations := [⟨"Chart.js docs", some "https://www.chartjs.org/docs/latest/",
                 "doc", "GraphQL Tool Agent", "Chart configuration"⟩] } true],
         g.awaiting)
      else if intent = "data_file_export" then
        let data := g.mem.getD mockSites
        (taskEvts ++ [working,
           Event.statusUpdate g.taskId g.contextId "input-required"
             { role := "agent", taskId := g.taskId, contextId := g.contextId,
               parts := ["About to export " ++ toString data.length ++
                 " row(s) to CSV. Proceed? (yes/no)"],
               citations := [⟨"Skill: data_file_export", none, "internal",
                 "GraphQL Tool Agent", "Export requires confirmation"⟩] } false],
         insertAwait g.awaiting g.taskId ⟨"exportCsv", data⟩)
      else
        match g.llm with
        | .ok txt =>
            (taskEvts ++ [working,
               Event.statusUpdate g.taskId g.contextId "completed"
                 { role := "agent", taskId := g.taskId, contextId := g.contextId,
                   parts := [txt],
                   citations := [⟨"Dataset: mockSites", none, "internal", "GraphQL Tool Agent",
                      "Source data for analysis"⟩,
                    ⟨"LLM (Azure OpenAI)", none, "model", "GraphQL Tool Agent",
                      "deployment completion"⟩] } true],
             g.awaiting)
        | .error m =>
            (taskEvts ++ [working,
               Event.statusUpdate g.taskId g.contextId "completed"
                 { role := "agent", taskId := g.taskId, contextId := g.contextId,
                   parts := ["**Error:** " ++ m], citations := [] } true],
             g.awaiting)

/-!
Client collection loop: src/frontend/app.js, ChatController.sendMessage.
-/

/-- The collectedCites accumulation (app.js lines 51 to 65): for every
status-update event of the stream, in arrival order, the citations array
of its message is appended. -/
def collectCites : List Event → List Citation
  | [] => []
  | e :: rest => e.statusCitations ++ collectCites rest

/-!
Claim theorems.
-/

/-- Claim C1: for every turn of the orchestrator
(AssistantAgentExecutor.execute), every event published to the original
caller - the initial task event, every working status update, and the
terminal status update - carries the orchestrator taskId and contextId
(on the event and on its nested message), never the identifiers of a
specialist, even when the turn delegated to a specialist whose stream
used different task and context identifiers. -/
theorem C1_orchestrator_identity (inp : OrchInput) (e : Event)
    (he : e ∈ orchTrace inp) : e.idsAre inp.taskId inp.contextId = true := by
  obtain ⟨ex, tid, cid, txt, cls, gen, tools, c1, c2⟩ := inp
  cases ex <;> cases c2 <;>
    simp_all only [orchTrace, List.cons_append, List.nil_append, List.mem_cons,
      List.not_mem_nil, or_false, if_true, if_false, Bool.false_eq_true,
      ite_true, ite_false] <;>
    (try rcases he with rfl | rfl | rfl) <;>
    simp [Event.idsAre, agentMsg]

/-- A delegated calculator stream running under its own identifiers,
different from the orchestrator identifiers of inpW1. -/
def toolW1 : Tool :=
  { name := "Calculator Agent", skillIds := ["calculator"], outputModes := ["text/plain"],
    stream := calcTrace true "spec-task-w" "spec-ctx-w" "3+5"
      (fun _ => .value true false "8") false }

/-- A concrete orchestrator turn delegating to toolW1. -/
def inpW1 : OrchInput :=
  { existing := false, taskId := "orch-task-w", contextId := "orch-ctx-w", text := "3+5",
    cls := some "calculator", gen := .error "unused", tools := [toolW1],
    cancelRouting := false, cancelTerminal := false }

/-- Witness for C1: the terminal event of a turn that delegated to a
specialist running under different identifiers still carries the
orchestrator identifiers. -/
theorem C1_orchestrator_identity_witness :
    (Event.statusUpdate "orch-task-w" "orch-ctx-w" "completed"
      (agentMsg "orch-task-w" "orch-ctx-w"
        "**Calculator Agent:** Crunching numbers...3+5 = 8\n\n") true).idsAre
      "orch-task-w" "orch-ctx-w" = true :=
  C1_orchestrator_identity inpW1 _
    ((show orchTrace inpW1 =
        [Event.task "orch-task-w" "orch-ctx-w" "submitted" ["3+5"],
         Event.statusUpdate "orch-task-w" "orch-ctx-w" "working"
           (agentMsg "orch-task-w" "orch-ctx-w" "_Assistant is thinking..._") false,
         Event.statusUpdate "orch-task-w" "orch-ctx-w" "completed"
           (agentMsg "orch-task-w" "orch-ctx-w"
             "**Calculator Agent:** Crunching numbers...3+5 = 8\n\n") true] from rfl) ▸
      List.Mem.tail _ (List.Mem.tail _ (List.Mem.head _)))

/-- Claim C2: every run of AssistantAgentExecutor.execute publishes
exactly one event with final true - the cancelled terminal event or the
completed terminal event, never both - and no further event follows it
(the final event is the last of the trace). -/
theorem C2_exactly_one_terminal (inp : OrchInput) :
    ∃ e, (orchTrace inp).getLast? = some e ∧ e.isFinal = true ∧
      (e.stateOf = "cancelled" ∨ e.stateOf = "completed") ∧
      (orchTrace inp).countP Event.isFinal = 1 := by
  obtain ⟨ex, tid, cid, txt, cls, gen, tools, c1, c2⟩ := inp
  cases ex <;> cases c2 <;>
    first
      | exact ⟨_, rfl, rfl, Or.inl rfl, rfl⟩
      | exact ⟨_, rfl, rfl, Or.inr rfl, rfl⟩

/-- Claim C9: AssistantAgentExecutor.cancelTask only inserts the task
identifier into the cancellation set (nothing else is added and nothing
removed); the set membership at the check immediately before the terminal
event selects a cancelled instead of a completed terminal event; and
marking a task cancelled never aborts an in-flight delegation or
completion call - the whole pre-terminal trace and the computed answer
are identical whether or not the task was cancelled, only the terminal
event differs. -/
theorem C9_cooperative_cancellation :
    (∀ (s : List String) (t : String),
        t ∈ cancelTask s t ∧ (∀ u, u ∈ s → u ∈ cancelTask s t) ∧
          (∀ u, u ∈ cancelTask s t → u = t ∨ u ∈ s))
    ∧ (∀ inp : OrchInput, inp.cancelTerminal = true →
        ∃ e, (orchTrace inp).getLast? = some e ∧ e.isFinal = true ∧ e.stateOf = "cancelled")
    ∧ (∀ inp : OrchInput, inp.cancelTerminal = false →
        ∃ e, (orchTrace inp).getLast? = some e ∧ e.isFinal = true ∧ e.stateOf = "completed")
    ∧ (∀ inp : OrchInput,
        (orchTrace { inp with cancelTerminal := true }).dropLast
            = (orchTrace { inp with cancelTerminal := false }).dropLast
          ∧ orchAnswer { inp with cancelTerminal := true }
            = orchAnswer { inp with cancelTerminal := false }) := by
  refine ⟨?_, ?_, ?_, ?_⟩
  · intro s t
    refine ⟨?_, fun u hu => ?_, fun u hu => ?_⟩
    · simp [cancelTask, List.mem_insert_iff]
    · simp [cancelTask, List.mem_insert_iff, hu]
    · simpa [cancelTask, List.mem_insert_iff] using hu
  · intro inp h
    obtain ⟨ex, tid, cid, txt, cls, gen, tools, c1, c2⟩ := inp
    cases c2 with
    | false => exact absurd h (by simp)
    | true => cases ex <;> exact ⟨_, rfl, rfl, rfl⟩
  · intro inp h
    obtain ⟨ex, tid, cid, txt, cls, gen, tools, c1, c2⟩ := inp
    cases c2 with
    | true => exact absurd h (by simp)
    | false => cases ex <;> exact ⟨_, rfl, rfl, rfl⟩
  · intro inp
    obtain ⟨ex, tid, cid, txt, cls, gen, tools, c1, c2⟩ := inp
    cases ex <;> exact ⟨rfl, rfl⟩

/-- A concrete cancelled orchestrator turn. -/
def inpW9c : OrchInput :=
  { existing := true, taskId := "orch-task-w9", contextId := "orch-ctx-w9", text := "slow job",
    cls := some "general", gen := .ok "done", tools := [],
    cancelRouting := false, cancelTerminal := true }

/-- A concrete uncancelled orchestrator turn. -/
def inpW9n : OrchInput :=
  { existing := true, taskId := "orch-task-w9", contextId := "orch-ctx-w9", text := "slow job",
    cls := some "general", gen := .ok "done", tools := [],
    cancelRouting := false, cancelTerminal := false }

/-- Witness for C9: concrete instantiations of the conjuncts that carry
hypotheses. -/
theorem C9_cooperative_cancellation_witness :
    ("task-z" ∈ cancelTask ["task-a"] "task-z")
    ∧ (∃ e, (orchTrace inpW9c).getLast? = some e ∧ e.isFinal = true ∧ e.stateOf = "cancelled")
    ∧ (∃ e, (orchTrace inpW9n).getLast? = some e ∧ e.isFinal = true ∧ e.stateOf = "completed") :=
  ⟨(C9_cooperative_cancellation.1 ["task-a"] "task-z").1,
   C9_cooperative_cancellation.2.1 inpW9c rfl,
   C9_cooperative_cancellation.2.2.1 inpW9n rfl⟩

/-- The character whitelist the evaluator input of part_001 can draw
from: digits, + - * / ( ) . space % - and never the caret, which the
replacement turns into stars. -/
def inCalcWhitelist (c : Char) : Bool :=
  c.isDigit || c = '+' || c = '-' || c = '*' || c = '/' || c = '(' || c = ')' ||
    c = '.' || c = ' ' || c = '%'

/-- The character whitelist the eval input of calculator-agent.js can draw
from: digits, + - * / . space. -/
def inCleanWhitelist (c : Char) : Bool :=
  c.isDigit || c = '+' || c = '-' || c = '*' || c = '/' || c = '.' || c = ' '

theorem data_mk (l : List Char) : (String.mk l).data = l := rfl

theorem calcExpr_data (s : String) : (calcExpr s).data = s.data.filter isCalcChar := rfl

theorem cleanExpr_data (t : String) :
    (cleanExpr t).data = t.data.map fun c => if isCleanChar c then c else ' ' := rfl

theorem calcJsExpr_data (raw : String) :
    (calcJsExpr raw).data
      = (calcExpr (jsTrim raw)).data.flatMap fun a => if a = '^' then ['*', '*'] else [a] := rfl

/-- A character surviving the caret replacement is a star or a non-caret
character of the original list. -/
theorem mem_caretChars {l : List Char} {c : Char}
    (h : c ∈ l.flatMap fun a => if a = '^' then ['*', '*'] else [a]) :
    c = '*' ∨ (c ∈ l ∧ c ≠ '^') := by
  simp only [List.mem_flatMap] at h
  obtain ⟨a, ha, hc⟩ := h
  by_cases h2 : a = '^'
  · subst h2
    simp at hc
    exact Or.inl hc
  · rw [if_neg h2] at hc
    simp only [List.mem_cons, List.not_mem_nil, or_false] at hc
    subst hc
    exact Or.inr ⟨ha, h2⟩

/-- The validation regex of part_001 line 98 accepts every non-empty
extraction result: the extraction class is contained in the validation
class, so the Unsupported-characters branch is unreachable. -/
theorem calcValid_filter (l : List Char) (h : l.filter isCalcChar ≠ []) :
    calcValid ⟨l.filter isCalcChar⟩ = true := by
  unfold calcValid
  rw [Bool.and_eq_true]
  refine ⟨?_, ?_⟩
  · rw [data_mk]
    cases hq : l.filter isCalcChar with
    | nil => exact absurd hq h
    | cons a as => rfl
  · rw [data_mk, List.all_eq_true]
    intro c hcmem
    have hc := (List.mem_filter.mp hcmem).2
    simp [hc]

/-- calcResultText with the always-true validation check discharged. -/
theorem calcResultText_eq (input : String) (ev : String → JSOutcome) :
    calcResultText input ev =
      if calcExpr (jsTrim input) = "" then "Error: No valid expression found in input."
      else
        match ev (calcJsExpr input) with
        | .thrown m => "Error: " ++ m
        | .value isNumber isNan r =>
            if !isNumber || isNan then "Error: Expression did not evaluate to a number."
            else calcExpr (jsTrim input) ++ " = " ++ r := by
  by_cases h1 : calcExpr (jsTrim input) = ""
  · simp [calcResultText, h1]
  · have hl : (jsTrim input).data.filter isCalcChar ≠ [] := by
      intro hd
      exact h1 (by
        rw [show calcExpr (jsTrim input)
              = String.mk ((jsTrim input).data.filter isCalcChar) from rfl, hd])
    have h2 : calcValid (calcExpr (jsTrim input)) = true := calcValid_filter (jsTrim input).data hl
    simp [calcResultText, h1, h2, calcJsExpr]

/-- Claim C10 (implicit safety property): for every input to the
calculator specialists, the string handed to the dynamic JavaScript
evaluator contains only whitelisted characters - digits, + - * / ( ) .
space % and the stars produced from the caret for part_001, digits,
+ - * / . space for calculator-agent.js - so no letter or identifier
character of the input ever reaches the evaluator; and every run yields
either an Error-prefixed result text (input with no whitelisted
expression, evaluation throwing, or - in part_001 - a non-number or NaN
value) or the successful rendering, never an escaping exception (the
embedding of the try/catch is total). -/
theorem C10_calculator_evaluator_safety :
    (∀ (raw : String) (c : Char), c ∈ (calcJsExpr raw).data → inCalcWhitelist c = true)
    ∧ (∀ (text : String) (c : Char), c ∈ (cleanExpr text).data → inCleanWhitelist c = true)
    ∧ (∀ (input : String) (ev : String → JSOutcome),
        (∃ m, calcResultText input ev = "Error: " ++ m)
        ∨ (∃ r, ev (calcJsExpr input) = JSOutcome.value true false r ∧
            calcResultText input ev = calcExpr (jsTrim input) ++ " = " ++ r))
    ∧ (∀ (text : String) (ev : String → JSOutcome),
        (∃ m, calc3001Result text ev = "Error: " ++ m)
        ∨ (∃ b1 b2 r, ev (cleanExpr text) = JSOutcome.value b1 b2 r ∧
            calc3001Result text ev = r)) := by
  refine ⟨?_, ?_, ?_, ?_⟩
  · intro raw c hc
    rw [calcJsExpr_data] at hc
    rcases mem_caretChars hc with rfl | ⟨hmem, hne⟩
    · decide
    · rw [calcExpr_data] at hmem
      have hcc := (List.mem_filter.mp hmem).2
      simp only [isCalcChar, Bool.or_eq_true, decide_eq_true_eq] at hcc
      simp only [inCalcWhitelist, Bool.or_eq_true, decide_eq_true_eq]
      tauto
  · intro text c hc
    rw [cleanExpr_data] at hc
    simp only [List.mem_map] at hc
    obtain ⟨a, -, rfl⟩ := hc
    by_cases h : isCleanChar a = true
    · rw [if_pos h]
      simp only [isCleanChar, Bool.or_eq_true, decide_eq_true_eq] at h
      simp only [inCleanWhitelist, Bool.or_eq_true, decide_eq_true_eq]
      tauto
    · rw [if_neg h]; decide
  · intro input ev
    rw [calcResultText_eq]
    by_cases h1 : calcExpr (jsTrim input) = ""
    · rw [if_pos h1]; exact Or.inl ⟨"No valid expression found in input.", rfl⟩
    · rw [if_neg h1]
      cases ho : ev (calcJsExpr input) with
      | thrown m => exact Or.inl ⟨m, rfl⟩
      | value isN isNan r =>
          cases isN with
          | false => exact Or.inl ⟨"Expression did not evaluate to a number.", rfl⟩
          | true =>
              cases isNan with
              | true => exact Or.inl ⟨"Expression did not evaluate to a number.", rfl⟩
              | false => exact Or.inr ⟨r, rfl, rfl⟩
  · intro text ev
    simp only [calc3001Result]
    by_cases h1 : jsTrim (cleanExpr text) = ""
    · rw [if_pos h1]; exact Or.inl ⟨"No math expression found.", rfl⟩
    · rw [if_neg h1]
      cases ho : ev (cleanExpr text) with
      | thrown m => exact Or.inl ⟨m, rfl⟩
      | value b1 b2 r => exact Or.inr ⟨b1, b2, r, rfl, rfl⟩

/-- Witness for C10: concrete instantiations of the whitelist conjuncts. -/
theorem C10_calculator_evaluator_safety_witness :
    inCalcWhitelist '2' = true ∧ inCleanWhitelist ' ' = true :=
  ⟨C10_calculator_evaluator_safety.1 "Calculate 2^5" '2' (by decide),
   C10_calculator_evaluator_safety.2.1 "what is 2 plus 2" ' ' (by decide)⟩

/-- The terminal event of an uncancelled turn is the completed status
update carrying the answer or the placeholder text. -/
theorem orchTrace_getLast_completed (inp : OrchInput) (hc : inp.cancelTerminal = false) :
    (orchTrace inp).getLast? = some (Event.statusUpdate inp.taskId inp.contextId "completed"
      (agentMsg inp.taskId inp.contextId
        (if orchAnswer inp = "" then "*[No answer]*" else orchAnswer inp)) true) := by
  obtain ⟨ex, tid, cid, txt, cls, gen, tools, c1, c2⟩ := inp
  cases c2 with
  | true => simp at hc
  | false => cases ex <;> rfl

/-- Every orchestrator turn publishes exactly one final event. -/
theorem orchTrace_one_final (inp : OrchInput) :
    (orchTrace inp).countP Event.isFinal = 1 := by
  obtain ⟨ex, tid, cid, txt, cls, gen, tools, c1, c2⟩ := inp
  cases ex <;> cases c2 <;> rfl

/-- A structured-data specialist run on an explicit query literal,
producing the stream with the result artifact. -/
def gIn5 : GraphQLIn :=
  { isNew := true, taskId := "gql-task-5", contextId := "gql-ctx-5",
    userText0 := "query \x7b allSites \x7b name location production \x7d \x7d",
    mem := none, queryJson := "RESULT_JSON", chartJson := "",
    llm := Except.error "unused", awaiting := [] }

/-- The graphql specialist as registered in the orchestrator tools list,
its stream taken from the specialist model. -/
def graphqlTool5 : Tool :=
  { name := "GraphQL Tool Agent",
    skillIds := ["compressor_data_query", "chart_output", "data_file_export", "data_analysis"],
    outputModes := ["text/plain", "text/markdown", "application/json"],
    stream := (graphqlHandle gIn5).1 }

/-- An orchestrator turn that delegates an explicit query literal to the
graphql specialist. -/
def inp5 : OrchInput :=
  { existing := false, taskId := "orch-task-5", contextId := "orch-ctx-5",
    text := "query \x7b allSites \x7b name location production \x7d \x7d",
    cls := some "graphql", gen := .error "unused", tools := [graphqlTool5],
    cancelRouting := false, cancelTerminal := false }

/-- Counterexample to claim C5 as stated: the delegated specialist stream
contains one artifact event (the result.json artifact with its
citations), the turn does delegate to that specialist, yet the
orchestrator trace forwards no artifact event at all -
_streamAgentResponse skips every event that is not a status update. -/
theorem C5_counterexample :
    graphqlTool5.stream.countP Event.isArtifact = 1
    ∧ orchRoute inp5 = some graphqlTool5
    ∧ (orchTrace inp5).countP Event.isArtifact = 0 := by decide

/-- Claim C5 amended: the orchestrator forwards no artifact events - for
every turn, whatever the delegated specialist stream contains, the trace
published to the caller has no artifact event; artifact payloads and
their citations are dropped, not rewritten. -/
theorem C5_no_artifact_forwarding (inp : OrchInput) :
    (orchTrace inp).countP Event.isArtifact = 0 := by
  obtain ⟨ex, tid, cid, txt, cls, gen, tools, c1, c2⟩ := inp
  cases ex <;> cases c2 <;> rfl

/-- A structured-data specialist run used by the C3 counterexample (the
stream itself is irrelevant to routing). -/
def gIn3 : GraphQLIn :=
  { isNew := true, taskId := "gql-task-3", contextId := "gql-ctx-3",
    userText0 := "query \x7b allSites \x7b name location \x7d \x7d",
    mem := none, queryJson := "RESULT_JSON", chartJson := "",
    llm := Except.error "unused", awaiting := [] }

/-- The graphql specialist registered for the C3 counterexample turn. -/
def graphqlTool3 : Tool :=
  { name := "GraphQL Tool Agent",
    skillIds := ["compressor_data_query", "chart_output", "data_file_export", "data_analysis"],
    outputModes := ["text/plain", "text/markdown", "application/json"],
    stream := (graphqlHandle gIn3).1 }

/-- A turn whose text is an explicit query literal while the
classification oracle returns the misleading label general. -/
def inp3 : OrchInput :=
  { existing := false, taskId := "orch-task-3", contextId := "orch-ctx-3",
    text := "query \x7b allSites \x7b name location \x7d \x7d",
    cls := some "general", gen := .ok "I cannot run queries directly.",
    tools := [graphqlTool3], cancelRouting := false, cancelTerminal := false }

/-- Counterexample to claim C3 as stated: the input text contains an
explicit structured-query marker and the structured-data specialist is
registered, but with a misleading oracle label the orchestrator does not
choose the structured-data path - it delegates nowhere and answers
through the general completion.  The orchestrator applies no hard
pattern rules before (or after) the classification call. -/
theorem C3_counterexample :
    jsIncludes (jsLower inp3.text) "query" = true
    ∧ graphqlIntent inp3.text = "compressor_data_query"
    ∧ classifiedIntent inp3.cls = "general"
    ∧ orchRoute inp3 = none
    ∧ (orchTrace inp3).getLast? = some (Event.statusUpdate "orch-task-3" "orch-ctx-3"
        "completed" (agentMsg "orch-task-3" "orch-ctx-3" "I cannot run queries directly.\n\n")
        true) := by decide

/-- Claim C3 amended: the orchestrator routes purely on the oracle label
(a delegation happens only when the trimmed lowercased label is weather,
calculator or graphql, and a general label never delegates); the
deterministic hard pattern rules live inside the structured-data
specialist, which - once the text reaches it - selects the query skill
for any text whose lowercasing starts with the query keyword or whose
trimming starts with a brace, with no oracle involved. -/
theorem C3_routing_follows_oracle :
    (∀ inp : OrchInput, (orchRoute inp).isSome = true →
        classifiedIntent inp.cls = "weather" ∨ classifiedIntent inp.cls = "calculator" ∨
          classifiedIntent inp.cls = "graphql")
    ∧ (∀ inp : OrchInput, classifiedIntent inp.cls = "general" → orchRoute inp = none)
    ∧ (∀ t : String, jsStartsWith (jsLower t) "query" = true →
        graphqlIntent t = "compressor_data_query")
    ∧ (∀ t : String, jsStartsWith (jsTrim t) "\x7b" = true →
        graphqlIntent t = "compressor_data_query") := by
  refine ⟨?_, ?_, ?_, ?_⟩
  · intro inp h
    simp only [orchRoute] at h
    by_cases hc : inp.cancelRouting = true
    · rw [if_pos hc] at h; simp at h
    · rw [if_neg hc] at h
      by_cases hi : classifiedIntent inp.cls = "weather" ∨ classifiedIntent inp.cls = "calculator"
          ∨ classifiedIntent inp.cls = "graphql"
      · exact hi
      · rw [if_neg hi] at h; simp at h
  · intro inp h
    simp only [orchRoute]
    by_cases hc : inp.cancelRouting = true
    · rw [if_pos hc]
    · rw [if_neg hc, if_neg]
      rintro (h1 | h1 | h1) <;> rw [h] at h1 <;> exact absurd h1 (by decide)
  · intro t h
    simp [graphqlIntent, h]
  · intro t h
    simp [graphqlIntent, h]

/-- A turn with an oracle label selecting a registered calculator. -/
def inpW3 : OrchInput :=
  { existing := false, taskId := "orch-task-3w", contextId := "orch-ctx-3w",
    text := "calc 1+1", cls := some " Calculator ", gen := .error "unused",
    tools := [toolW1], cancelRouting := false, cancelTerminal := false }

/-- Witness for the amended C3: concrete instantiations of every
conjunct. -/
theorem C3_routing_follows_oracle_witness :
    (classifiedIntent inpW3.cls = "weather" ∨ classifiedIntent inpW3.cls = "calculator"
      ∨ classifiedIntent inpW3.cls = "graphql")
    ∧ orchRoute inp3 = none
    ∧ graphqlIntent "query \x7b allSites \x7d" = "compressor_data_query"
    ∧ graphqlIntent "  \x7b allSites \x7d" = "compressor_data_query" :=
  ⟨C3_routing_follows_oracle.1 inpW3 (by decide),
   C3_routing_follows_oracle.2.1 inp3 (by decide),
   C3_routing_follows_oracle.2.2.1 "query \x7b allSites \x7d" (by decide),
   C3_routing_follows_oracle.2.2.2 "  \x7b allSites \x7d" (by decide)⟩

/-- The evaluator outcome for the arithmetic of the C4 scenario. -/
def evCalc116 : String → JSOutcome := fun _ => JSOutcome.value true false "116"

/-- The calculator specialist stream for the scenario input, running
under the specialist task identifiers. -/
def calcStream4 : List Event :=
  calcTrace true "calc-task-4" "calc-ctx-4" "Calculate 25 * 4 + 16" evCalc116 false

/-- The calculator specialist registered for the C4 scenario. -/
def calculatorTool4 : Tool :=
  { name := "Calculator Agent", skillIds := ["calculator"], outputModes := ["text/plain"],
    stream := calcStream4 }

/-- The C4 scenario turn: the example input, an oracle label calculator,
and the calculator specialist registered. -/
def inp4 : OrchInput :=
  { existing := false, taskId := "orch-task-4", contextId := "orch-ctx-4",
    text := "Calculate 25 * 4 + 16", cls := some "calculator", gen := .error "unused",
    tools := [calculatorTool4], cancelRouting := false, cancelTerminal := false }

/-- Counterexample to claim C4 as stated: for the scenario input the
terminal bubble text is not the claimed string - the orchestrator also
accumulates the specialist working text (Crunching numbers...), and the
extraction of part_001 keeps the space before 25, so the specialist final
text already differs from the claimed one. -/
theorem C4_counterexample :
    (orchTrace inp4).getLast? = some (Event.statusUpdate "orch-task-4" "orch-ctx-4"
      "completed" (agentMsg "orch-task-4" "orch-ctx-4"
        "**Calculator Agent:** Crunching numbers... 25 * 4 + 16 = 116\n\n") true)
    ∧ "**Calculator Agent:** Crunching numbers... 25 * 4 + 16 = 116\n\n"
        ≠ "**Calculator Agent:** 25 * 4 + 16 = 116\n\n" := by decide

/-- Claim C4 amended: for the scenario input the specialist final text is
the space-prefixed extraction result, and the orchestrator terminal
bubble is the specialist-name-prefixed concatenation of the working text
and the final text, with the two-newline suffix. -/
theorem C4_actual_terminal_text :
    calcResultText "Calculate 25 * 4 + 16" evCalc116 = " 25 * 4 + 16 = 116"
    ∧ orchAnswer inp4
        = "**Calculator Agent:** Crunching numbers... 25 * 4 + 16 = 116\n\n" := by decide

/-- A turn whose oracle label selects a specialist that is not
registered (the tools list is empty), with a working general completion
available. -/
def inp8 : OrchInput :=
  { existing := false, taskId := "orch-task-8", contextId := "orch-ctx-8",
    text := "Calculate 2 + 2", cls := some "calculator", gen := .ok "The answer is 4.",
    tools := [], cancelRouting := false, cancelTerminal := false }

/-- Counterexample to claim C8 as stated: with a specialist intent and no
matching registered specialist the turn does not fall through to the
direct-answer path - the terminal event carries the placeholder text, not
the direct answer the completion oracle would have produced. -/
theorem C8_counterexample :
    classifiedIntent inp8.cls = "calculator"
    ∧ findTool inp8.tools "calculator" = none
    ∧ (orchTrace inp8).getLast? = some (Event.statusUpdate "orch-task-8" "orch-ctx-8"
        "completed" (agentMsg "orch-task-8" "orch-ctx-8" "*[No answer]*") true)
    ∧ ("*[No answer]*" : String) ≠ "The answer is 4.\n\n" := by decide

/-- Claim C8 amended: when the classified intent selects a specialist and
no registered tool matches it, the turn still terminates - exactly one
final event is published - but the direct-answer path is not taken (it
runs only for the label general): the terminal event carries the
placeholder text. -/
theorem C8_unregistered_specialist_placeholder (inp : OrchInput)
    (hi : classifiedIntent inp.cls = "weather" ∨ classifiedIntent inp.cls = "calculator" ∨
      classifiedIntent inp.cls = "graphql")
    (hf : findTool inp.tools (classifiedIntent inp.cls) = none)
    (hc : inp.cancelTerminal = false) :
    (orchTrace inp).getLast? = some (Event.statusUpdate inp.taskId inp.contextId "completed"
      (agentMsg inp.taskId inp.contextId "*[No answer]*") true)
    ∧ (orchTrace inp).countP Event.isFinal = 1 := by
  have hng : classifiedIntent inp.cls ≠ "general" := by
    rcases hi with h | h | h <;> rw [h] <;> decide
  have hr : orchRoute inp = none := by
    simp only [orchRoute]
    by_cases hcr : inp.cancelRouting = true
    · rw [if_pos hcr]
    · rw [if_neg hcr, if_pos hi, hf]
  have ha : orchAnswer inp = "" := by
    simp only [orchAnswer, hr]
    by_cases hcr : inp.cancelRouting = true
    · rw [if_pos hcr]
    · rw [if_neg hcr]
      exact if_neg fun hand => hng hand.2
  refine ⟨?_, orchTrace_one_final inp⟩
  rw [orchTrace_getLast_completed inp hc, ha, if_pos rfl]

/-- Witness for the amended C8: the concrete unregistered-specialist turn
terminates with the placeholder. -/
theorem C8_unregistered_specialist_placeholder_witness :
    (orchTrace inp8).getLast? = some (Event.statusUpdate "orch-task-8" "orch-ctx-8" "completed"
      (agentMsg "orch-task-8" "orch-ctx-8" "*[No answer]*") true)
    ∧ (orchTrace inp8).countP Event.isFinal = 1 :=
  C8_unregistered_specialist_placeholder inp8 (Or.inr (Or.inl (by decide))) (by decide) rfl

/-- An awaiting entry of the graphql specialist pausing a CSV export. -/
def entry6 : AwaitEntry := ⟨"exportCsv", mockSites⟩

/-- The specialist awaiting map while the export confirmation for the
paused specialist task gql-task-6p is pending. -/
def await6 : List (String × AwaitEntry) := [("gql-task-6p", entry6)]

/-- The reply turn as the graphql server sees it when the orchestrator
forwards the user reply: because the orchestrator delegation message
carries no task identifiers, the server mints a fresh specialist task
(gql-task-6f), distinct from the paused one. -/
def gIn6 : GraphQLIn :=
  { isNew := true, taskId := "gql-task-6f", contextId := "gql-ctx-6", userText0 := "yes",
    mem := none, queryJson := "", chartJson := "", llm := Except.error "LLM not configured.",
    awaiting := await6 }

/-- The reply turn as the orchestrator handles it: its executor state has
no bridge map, so the reply goes through intent classification again. -/
def inp6 : OrchInput :=
  { existing := true, taskId := "orch-task-6", contextId := "orch-ctx-6", text := "yes",
    cls := some "general", gen := .ok "Noted.", tools := [],
    cancelRouting := false, cancelTerminal := false }

/-- Counterexample to claim C6 as stated: the orchestrator
(AssistantAgentExecutor) keeps no bridge keyed by its task - its state is
only the cancellation set and the tools list - and its outbound
delegation message never carries task or context identifiers, so the next
inbound message for the orchestrator task is not forwarded to the paused
specialist task: handled as a fresh specialist task, the reply yes leaves
the paused awaiting entry untouched and triggers no export, while the
orchestrator itself re-classifies the reply through the oracle instead of
bypassing classification. -/
theorem C6_counterexample :
    (delegationMessage "yes").taskId = none
    ∧ (delegationMessage "yes").contextId = none
    ∧ lookupAwait await6 "gql-task-6f" = none
    ∧ lookupAwait (graphqlHandle gIn6).2 "gql-task-6p" = some entry6
    ∧ (graphqlHandle gIn6).1.countP Event.isArtifact = 0
    ∧ orchRoute inp6 = none
    ∧ orchAnswer inp6 = "Noted.\n\n" := by decide

/-- Claim C6 amended: the HITL bridge of this repository lives inside the
structured-data specialist, keyed by the specialist task id
(GraphQLAgentExecutor.awaiting): an entry is created when the export
intent pauses the task with a non-final input-required update (and no
terminal event); while the entry exists the next message for that task is
handled by the confirmation branch, which bypasses the intent patterns;
the entry is removed exactly when the reply resolves the pause (yes-like
or no-like), producing a final completed event; and an unresolved reply
re-arms the bridge - the map is returned unchanged, with another
non-final input-required update and no terminal event. -/
theorem C6_specialist_bridge_lifecycle :
    (∀ g : GraphQLIn, lookupAwait g.awaiting g.taskId = none →
        graphqlIntent (jsTrim g.userText0) = "data_file_export" →
          (graphqlHandle g).2
              = insertAwait g.awaiting g.taskId ⟨"exportCsv", g.mem.getD mockSites⟩
            ∧ (∃ e, (graphqlHandle g).1.getLast? = some e ∧ e.stateOf = "input-required"
                ∧ e.isFinal = false)
            ∧ (graphqlHandle g).1.countP Event.isFinal = 0)
    ∧ (∀ (g : GraphQLIn) (entry : AwaitEntry), lookupAwait g.awaiting g.taskId = some entry →
        yesLike (jsLower (jsTrim g.userText0)) = true →
          (graphqlHandle g).2 = eraseAwait g.awaiting g.taskId
            ∧ (∃ e, (graphqlHandle g).1.getLast? = some e ∧ e.isFinal = true
                ∧ e.stateOf = "completed"))
    ∧ (∀ (g : GraphQLIn) (entry : AwaitEntry), lookupAwait g.awaiting g.taskId = some entry →
        yesLike (jsLower (jsTrim g.userText0)) = false →
        noLike (jsLower (jsTrim g.userText0)) = true →
          (graphqlHandle g).2 = eraseAwait g.awaiting g.taskId
            ∧ (∃ e, (graphqlHandle g).1.getLast? = some e ∧ e.isFinal = true
                ∧ e.stateOf = "completed"))
    ∧ (∀ (g : GraphQLIn) (entry : AwaitEntry), lookupAwait g.awaiting g.taskId = some entry →
        yesLike (jsLower (jsTrim g.userText0)) = false →
        noLike (jsLower (jsTrim g.userText0)) = false →
          (graphqlHandle g).2 = g.awaiting
            ∧ (∃ e, (graphqlHandle g).1.getLast? = some e ∧ e.stateOf = "input-required"
                ∧ e.isFinal = false)
            ∧ (graphqlHandle g).1.countP Event.isFinal = 0) := by
  refine ⟨?_, ?_, ?_, ?_⟩
  · intro g h hint
    obtain ⟨isNew, tid, cid, ut, mem, qj, cj, llm, aw⟩ := g
    cases isNew <;>
      simp only [graphqlHandle, h, hint] <;>
      exact ⟨rfl, ⟨_, rfl, rfl, rfl⟩, rfl⟩
  · intro g entry h hy
    obtain ⟨isNew, tid, cid, ut, mem, qj, cj, llm, aw⟩ := g
    cases isNew <;>
      simp only [graphqlHandle, h, hy] <;>
      exact ⟨rfl, ⟨_, rfl, rfl, rfl⟩⟩
  · intro g entry h hy hn
    obtain ⟨isNew, tid, cid, ut, mem, qj, cj, llm, aw⟩ := g
    cases isNew <;>
      simp only [graphqlHandle, h, hy, hn] <;>
      exact ⟨rfl, ⟨_, rfl, rfl, rfl⟩⟩
  · intro g entry h hy hn
    obtain ⟨isNew, tid, cid, ut, mem, qj, cj, llm, aw⟩ := g
    cases isNew <;>
      simp only [graphqlHandle, h, hy, hn] <;>
      exact ⟨rfl, ⟨_, rfl, rfl, rfl⟩, rfl⟩

/-- A fresh export request arming the specialist bridge. -/
def gW6create : GraphQLIn :=
  { isNew := true, taskId := "gql-w6", contextId := "gql-ctx-w6",
    userText0 := "please export a csv", mem := none, queryJson := "", chartJson := "",
    llm := .error "unused", awaiting := [] }

/-- A confirming reply on the armed bridge. -/
def gW6yes : GraphQLIn :=
  { isNew := false, taskId := "gql-w6", contextId := "gql-ctx-w6", userText0 := "Yes",
    mem := none, queryJson := "", chartJson := "", llm := .error "unused",
    awaiting := [("gql-w6", entry6)] }

/-- A declining reply on the armed bridge. -/
def gW6no : GraphQLIn :=
  { isNew := false, taskId := "gql-w6", contextId := "gql-ctx-w6", userText0 := "no",
    mem := none, queryJson := "", chartJson := "", llm := .error "unused",
    awaiting := [("gql-w6", entry6)] }

/-- An unresolved reply on the armed bridge. -/
def gW6maybe : GraphQLIn :=
  { isNew := false, taskId := "gql-w6", contextId := "gql-ctx-w6", userText0 := "hmm not sure",
    mem := none, queryJson := "", chartJson := "", llm := .error "unused",
    awaiting := [("gql-w6", entry6)] }

/-- Witness for the amended C6: the four lifecycle steps at concrete
inputs. -/
theorem C6_specialist_bridge_lifecycle_witness :
    ((graphqlHandle gW6create).2 = insertAwait [] "gql-w6" ⟨"exportCsv", mockSites⟩
      ∧ (∃ e, (graphqlHandle gW6create).1.getLast? = some e ∧ e.stateOf = "input-required"
          ∧ e.isFinal = false)
      ∧ (graphqlHandle gW6create).1.countP Event.isFinal = 0)
    ∧ ((graphqlHandle gW6yes).2 = eraseAwait [("gql-w6", entry6)] "gql-w6"
      ∧ (∃ e, (graphqlHandle gW6yes).1.getLast? = some e ∧ e.isFinal = true
          ∧ e.stateOf = "completed"))
    ∧ ((graphqlHandle gW6no).2 = eraseAwait [("gql-w6", entry6)] "gql-w6"
      ∧ (∃ e, (graphqlHandle gW6no).1.getLast? = some e ∧ e.isFinal = true
          ∧ e.stateOf = "completed"))
    ∧ ((graphqlHandle gW6maybe).2 = [("gql-w6", entry6)]
      ∧ (∃ e, (graphqlHandle gW6maybe).1.getLast? = some e ∧ e.stateOf = "input-required"
          ∧ e.isFinal = false)
      ∧ (graphqlHandle gW6maybe).1.countP Event.isFinal = 0) :=
  ⟨C6_specialist_bridge_lifecycle.1 gW6create (by decide) (by decide),
   C6_specialist_bridge_lifecycle.2.1 gW6yes entry6 (by decide) (by decide),
   C6_specialist_bridge_lifecycle.2.2.1 gW6no entry6 (by decide) (by decide) (by decide),
   C6_specialist_bridge_lifecycle.2.2.2 gW6maybe entry6 (by decide) (by decide) (by decide)⟩

/-- A structured-data specialist run whose final status update carries a
citation (the query skill path). -/
def gIn7 : GraphQLIn :=
  { isNew := true, taskId := "gql-task-7", contextId := "gql-ctx-7",
    userText0 := "query \x7b allSites \x7b production \x7d \x7d",
    mem := none, queryJson := "RESULT_JSON", chartJson := "",
    llm := Except.error "unused", awaiting := [] }

/-- The graphql specialist registered for the C7 turn. -/
def graphqlTool7 : Tool :=
  { name := "GraphQL Tool Agent",
    skillIds := ["compressor_data_query", "chart_output", "data_file_export", "data_analysis"],
    outputModes := ["text/plain", "text/markdown", "application/json"],
    stream := (graphqlHandle gIn7).1 }

/-- An orchestrator turn delegating to the citation-producing specialist. -/
def inp7 : OrchInput :=
  { existing := false, taskId := "orch-task-7", contextId := "orch-ctx-7",
    text := "query \x7b allSites \x7b production \x7d \x7d",
    cls := some "graphql", gen := .error "unused", tools := [graphqlTool7],
    cancelRouting := false, cancelTerminal := false }

/-- Counterexample to claim C7 as stated: the delegated specialist stream
carries one status-level citation, the turn delegates to that specialist,
yet the terminal event of the orchestrator carries no citations at all -
the orchestrator neither forwards specialist citations nor appends a
delegation-marker citation of its own, so the terminal citation sequence
cannot be the claimed concatenation. -/
theorem C7_counterexample :
    collectCites graphqlTool7.stream
        = [⟨"GraphQL spec (query language)", some "https://spec.graphql.org/", "doc",
            "GraphQL Tool Agent", "Query evaluation"⟩]
    ∧ orchRoute inp7 = some graphqlTool7
    ∧ ((orchTrace inp7).getLast?.map Event.statusCitations) = some []
    ∧ collectCites (orchTrace inp7) = ([] : List Citation) := by decide

/-- Claim C7 amended: the orchestrator publishes every status update with
an empty citation list - specialist citations are dropped and no
delegation-marker citation is added, so the terminal citation sequence is
empty; on the client side the collection loop is order-preserving
concatenation across events in arrival order (so relative order would be
preserved were citations present). -/
theorem C7_no_citation_forwarding :
    (∀ (inp : OrchInput) (e : Event), e ∈ orchTrace inp → e.statusCitations = [])
    ∧ (∀ xs ys : List Event, collectCites (xs ++ ys) = collectCites xs ++ collectCites ys) := by
  constructor
  · intro inp e he
    obtain ⟨ex, tid, cid, txt, cls, gen, tools, c1, c2⟩ := inp
    cases ex <;> cases c2 <;>
      simp_all only [orchTrace, List.cons_append, List.nil_append, List.mem_cons,
        List.not_mem_nil, or_false, if_true, if_false, Bool.false_eq_true,
        ite_true, ite_false] <;>
      (try rcases he with rfl | rfl | rfl) <;>
      simp [Event.statusCitations, agentMsg]
  · intro xs ys
    induction xs with
    | nil => rfl
    | cons e rest ih => simp [collectCites, ih]

/-- Witness for the amended C7: the working update of the concrete
delegating turn carries no citations. -/
theorem C7_no_citation_forwarding_witness :
    (Event.statusUpdate "orch-task-7" "orch-ctx-7" "working"
      (agentMsg "orch-task-7" "orch-ctx-7" "_Assistant is thinking..._")
      false).statusCitations = [] :=
  C7_no_citation_forwarding.1 inp7 _
    ((show orchTrace inp7 =
        [Event.task "orch-task-7" "orch-ctx-7" "submitted"
           ["query \x7b allSites \x7b production \x7d \x7d"],
         Event.statusUpdate "orch-task-7" "orch-ctx-7" "working"
           (agentMsg "orch-task-7" "orch-ctx-7" "_Assistant is thinking..._") false,
         Event.statusUpdate "orch-task-7" "orch-ctx-7" "completed"
           (agentMsg "orch-task-7" "orch-ctx-7" "**GraphQL Tool Agent:** RESULT_JSON\n\n")
           true] from rfl) ▸
      List.Mem.tail _ (List.Mem.head _))

end A2ADemo
